import Mathlib

/-!
Verification of the GradViT training script (src/gradvit.py).

The development shallowly embeds the parts of the script that the claims
refer to:

* `fixed_point_quantize` — the fixed-point quantizer (source lines 22-24),
  modelled over exact rationals; `torch.round` rounds half to even, which
  `roundHalfEven` reproduces.
* gradient clipping in the batch loop (source lines 251-256), including the
  `1e-6` stabiliser inside `torch.nn.utils.clip_grad_norm_`.
* the shape-level behaviour of the module constructors and of the attention
  forward pass (source lines 40-63, 86-108).
* the epoch-level training driver (source lines 230-295, 314-339, 344-346):
  global metric lists, growth check, optimizer handling.  Per-batch numeric
  work is abstracted into per-epoch aggregates (`EpochData`), which is the
  granularity at which the driver-level claims are stated.
-/

/-! ## Fixed-point quantizer (source lines 22-24)

`fixed_point_quantize(tensor, scale)` is
`torch.round(tensor * scale).clamp(-2**15, 2**15 - 1) / scale`.
Tensors are modelled elementwise over `ℚ`; `torch.round` implements
round-half-to-even. -/

/-- Round to the nearest integer, ties to even — the semantics of
`torch.round`. -/
def roundHalfEven (q : ℚ) : ℤ :=
  if q - ⌊q⌋ < 1/2 then ⌊q⌋
  else if 1/2 < q - ⌊q⌋ then ⌊q⌋ + 1
  else if 2 ∣ ⌊q⌋ then ⌊q⌋ else ⌊q⌋ + 1

/-- The clamp of `.clamp(-2**15, 2**15 - 1)` on the rounded integer. -/
def clampI16 (n : ℤ) : ℤ :=
  min (max n (-(2 ^ 15))) (2 ^ 15 - 1)

/-- Source line 24: `torch.round(tensor * scale).clamp(-2**15, 2**15-1) / scale`,
for one tensor element. -/
def fixed_point_quantize (x : ℚ) (scale : ℚ) : ℚ :=
  (clampI16 (roundHalfEven (x * scale)) : ℚ) / scale

/-- Elementwise action of `fixed_point_quantize` on a whole tensor
(flattened to a list of elements). -/
def fixed_point_quantize_tensor (t : List ℚ) (scale : ℚ) : List ℚ :=
  t.map (fun x => fixed_point_quantize x scale)

lemma roundHalfEven_floor_le (q : ℚ) : ⌊q⌋ ≤ roundHalfEven q := by
  unfold roundHalfEven
  split_ifs <;> omega

lemma roundHalfEven_le_floor_add_one (q : ℚ) : roundHalfEven q ≤ ⌊q⌋ + 1 := by
  unfold roundHalfEven
  split_ifs <;> omega

lemma roundHalfEven_intCast (n : ℤ) : roundHalfEven (n : ℚ) = n := by
  unfold roundHalfEven
  have h : ⌊(n : ℚ)⌋ = n := Int.floor_intCast n
  rw [h]
  have : (n : ℚ) - n = 0 := by ring
  rw [this]
  norm_num

lemma roundHalfEven_mono {x y : ℚ} (h : x ≤ y) :
    roundHalfEven x ≤ roundHalfEven y := by
  rcases lt_or_eq_of_le (Int.floor_le_floor h) with hf | hf
  · calc roundHalfEven x ≤ ⌊x⌋ + 1 := roundHalfEven_le_floor_add_one x
      _ ≤ ⌊y⌋ := by omega
      _ ≤ roundHalfEven y := roundHalfEven_floor_le y
  · have hxy : x - ⌊x⌋ ≤ y - ⌊y⌋ := by
      rw [hf] at *
      linarith
    unfold roundHalfEven
    rw [hf]
    split_ifs <;> first | omega | linarith

lemma clampI16_mono {a b : ℤ} (h : a ≤ b) : clampI16 a ≤ clampI16 b := by
  unfold clampI16
  omega

lemma clampI16_mem (n : ℤ) : -(2 ^ 15) ≤ clampI16 n ∧ clampI16 n ≤ 2 ^ 15 - 1 := by
  unfold clampI16
  omega

lemma clampI16_of_mem {n : ℤ} (h1 : -(2 ^ 15) ≤ n) (h2 : n ≤ 2 ^ 15 - 1) :
    clampI16 n = n := by
  unfold clampI16
  omega

/-! ## Hyperparameters of the script (source lines 133-143, 195-199) -/

def learning_rate : ℚ := mkRat 1 1000
def image_size : ℕ := 32
def patch_size : ℕ := 4
def embed_dim : ℕ := 512
def depth : ℕ := 3
def num_heads : ℕ := 16
def hidden_dim : ℕ := 256
def qscale : ℚ := 2 ^ 8
def grad_clip_threshold : ℚ := mkRat 3 10
def grad_threshold : ℚ := mkRat 3 10
def loss_threshold : ℚ := mkRat 19 20
def grow_every_n_epochs : ℕ := 20

/- The rational constants are written with `mkRat` so that they reduce
inside the kernel; the following lemmas record their literal values. -/

lemma learning_rate_eq : learning_rate = 1/1000 := by
  rw [learning_rate, Rat.mkRat_eq_div]; norm_num

lemma grad_clip_threshold_eq : grad_clip_threshold = 3/10 := by
  rw [grad_clip_threshold, Rat.mkRat_eq_div]; norm_num

lemma grad_threshold_eq : grad_threshold = 3/10 := by
  rw [grad_threshold, Rat.mkRat_eq_div]; norm_num

lemma loss_threshold_eq : loss_threshold = 19/20 := by
  rw [loss_threshold, Rat.mkRat_eq_div]; norm_num

/-! ## Gradient clipping in the batch loop (source lines 251-256)

The script computes `grad_norm` as the Euclidean norm of the concatenation
of all parameter gradients, and when `grad_norm > grad_clip_threshold` calls
`torch.nn.utils.clip_grad_norm_(model.parameters(), grad_clip_threshold)`,
which multiplies every gradient by
`min(max_norm / (total_norm + 1e-6), 1.0)`.

The concatenated gradient is modelled as a flat `List ℚ`.  The Euclidean
norm itself is a square root, which is irrational in general, so the
embedding passes the norm value `grad_norm` as an argument together with
the hypothesis `grad_norm ≥ 0 ∧ grad_norm * grad_norm = sumSq g` certifying
that it is the Euclidean norm of `g`. -/

/-- Sum of squared entries of the concatenated gradient; the Euclidean norm
is its square root. -/
def sumSq (g : List ℚ) : ℚ := (g.map (fun x => x * x)).sum

/-- The `1e-6` stabiliser used inside `torch.nn.utils.clip_grad_norm_`. -/
def clip_eps : ℚ := mkRat 1 1000000

lemma clip_eps_eq : clip_eps = 1/1000000 := by
  rw [clip_eps, Rat.mkRat_eq_div]; norm_num

/-- Model of `torch.nn.utils.clip_grad_norm_(params, max_norm)`:
every gradient entry is multiplied by
`min(max_norm / (total_norm + 1e-6), 1.0)`. -/
def clip_grad_norm (g : List ℚ) (total_norm max_norm : ℚ) : List ℚ :=
  g.map (fun x => x * min (max_norm / (total_norm + clip_eps)) 1)

/-- Source lines 255-256: clipping is applied to the batch gradient exactly
when `grad_norm > grad_clip_threshold`. -/
def train_batch_clip (g : List ℚ) (grad_norm : ℚ) : List ℚ :=
  if grad_norm > grad_clip_threshold then
    clip_grad_norm g grad_norm grad_clip_threshold
  else g

lemma sumSq_map_mul (g : List ℚ) (c : ℚ) :
    sumSq (g.map (fun x => x * c)) = c * c * sumSq g := by
  induction g with
  | nil => simp [sumSq]
  | cons a t ih =>
      simp only [List.map_cons, sumSq, List.sum_cons] at *
      rw [ih]
      ring

/-! ## Module construction and shape behaviour (source lines 26-108)

The constructors of `FixedPointMLP`, `FixedPointAttention`,
`FixedPointTransformerEncoderLayer` and `FixedPointViT` only allocate
sub-modules and store hyperparameters; none of them contains any check or
`raise`, so their embeddings are total functions on the configuration.
`nn.Linear` and `nn.Parameter` allocation is modelled at shape level.

The attention forward pass (source lines 49-63) is modelled at shape level
because claim C3 is about where a bad configuration fails: `.view(batch,
seq, num_heads, -1)` raises `RuntimeError` exactly when the known
dimensions do not divide the element count, which is the first place an
`embed_dim` / `num_heads` mismatch can surface. -/

/-- Shape of an `nn.Linear(in_features, out_features)` module. -/
structure LinearCfg where
  in_features : ℕ
  out_features : ℕ
deriving DecidableEq, Repr

/-- Applying an `nn.Linear` to a tensor whose last dimension is `lastDim`:
succeeds with the new last dimension iff the input dimension matches. -/
def linearApply (l : LinearCfg) (lastDim : ℕ) : Except String ℕ :=
  if lastDim = l.in_features then Except.ok l.out_features
  else Except.error "mat1 and mat2 shapes cannot be multiplied"

/-- Semantics of `.view(..., -1)`: the inferred dimension is
`numel / known`, and the reshape raises unless `known` is nonzero and
divides `numel`. -/
def viewInfer (numel known : ℕ) : Except String ℕ :=
  if known ≠ 0 ∧ known ∣ numel then Except.ok (numel / known)
  else Except.error "shape is invalid for input of given size"

/-- State built by `FixedPointAttention.__init__` (source lines 42-47):
no validation is performed, the two linear layers are just allocated. -/
structure FixedPointAttention where
  num_heads : ℕ
  scale : ℚ
  qkv : LinearCfg
  out_proj : LinearCfg
deriving DecidableEq, Repr

/-- Source lines 42-47: `FixedPointAttention.__init__` stores `num_heads`
and `scale` and allocates `qkv = nn.Linear(embed_dim, embed_dim * 3)` and
`out_proj = nn.Linear(embed_dim, embed_dim)`.  There is no divisibility
check, so construction is a total function. -/
def FixedPointAttention.init (embedDim numHeads : ℕ) (scale : ℚ) :
    FixedPointAttention :=
  { num_heads := numHeads
    scale := scale
    qkv := { in_features := embedDim, out_features := embedDim * 3 }
    out_proj := { in_features := embedDim, out_features := embedDim } }

/-- Shape behaviour of `FixedPointAttention.forward` (source lines 49-63)
on an input of shape `(batch_size, seq_len, embed_dim)`: the `qkv` linear,
the chunk into three parts, the `.view(batch_size, seq_len, num_heads, -1)`
head split (the step that raises when `num_heads` does not divide the
chunk width), the reshape back, and the output projection. -/
def FixedPointAttention.forwardShape (a : FixedPointAttention)
    (batch_size seq_len embedDim : ℕ) : Except String (ℕ × ℕ × ℕ) :=
  match linearApply a.qkv embedDim with
  | Except.error e => Except.error e
  | Except.ok qkvDim =>
    match viewInfer (batch_size * seq_len * (qkvDim / 3))
        (batch_size * seq_len * a.num_heads) with
    | Except.error e => Except.error e
    | Except.ok _headDim =>
      match linearApply a.out_proj embedDim with
      | Except.error e => Except.error e
      | Except.ok outDim => Except.ok (batch_size, seq_len, outDim)

/-- State built by `FixedPointMLP.__init__` (source lines 28-32). -/
structure FixedPointMLP where
  fc1 : LinearCfg
  fc2 : LinearCfg
  scale : ℚ
deriving DecidableEq, Repr

/-- Source lines 28-32: two linear layers, no validation. -/
def FixedPointMLP.init (inputDim hiddenDim outputDim : ℕ) (scale : ℚ) :
    FixedPointMLP :=
  { fc1 := { in_features := inputDim, out_features := hiddenDim }
    fc2 := { in_features := hiddenDim, out_features := outputDim }
    scale := scale }

/-- State built by `FixedPointTransformerEncoderLayer.__init__`
(source lines 67-73). -/
structure FixedPointTransformerEncoderLayer where
  self_attn : FixedPointAttention
  mlp : FixedPointMLP
  norm_dim : ℕ
  scale : ℚ
deriving DecidableEq, Repr

/-- Source lines 67-73: sub-modules are allocated, no validation. -/
def FixedPointTransformerEncoderLayer.init
    (embedDim numHeads hiddenDim : ℕ) (scale : ℚ) : FixedPointTransformerEncoderLayer :=
  { self_attn := FixedPointAttention.init embedDim numHeads scale
    mlp := FixedPointMLP.init embedDim hiddenDim embedDim scale
    norm_dim := embedDim
    scale := scale }

/-- State built by `FixedPointViT.__init__` (source lines 88-108). -/
structure FixedPointViT where
  scale : ℚ
  patch_size : ℕ
  patch_dim : ℕ
  embedding : LinearCfg
  pos_patches : ℕ
  pos_embed_dim : ℕ
  layers : List FixedPointTransformerEncoderLayer
  classifier : LinearCfg
deriving DecidableEq, Repr

/-- Source lines 88-108: `FixedPointViT.__init__` computes
`patch_dim = (image_size // patch_size) ** 2`, allocates the patch
embedding, positional embedding, `depth` encoder layers and the
classifier head.  It contains no divisibility check on
`embed_dim / num_heads` or `image_size / patch_size`, so construction is
a total function. -/
def FixedPointViT.init (imageSize patchSize numClasses embedDim nDepth
    numHeads hiddenDim : ℕ) (scale : ℚ) : FixedPointViT :=
  { scale := scale
    patch_size := patchSize
    patch_dim := (imageSize / patchSize) ^ 2
    embedding := { in_features := 3 * patchSize * patchSize
                   out_features := embedDim }
    pos_patches := (imageSize / patchSize) ^ 2
    pos_embed_dim := embedDim
    layers := List.replicate nDepth
      (FixedPointTransformerEncoderLayer.init embedDim numHeads hiddenDim scale)
    classifier := { in_features := embedDim, out_features := numClasses } }

/-! ## Training driver (source lines 181-295, 314-346)

The driver-level claims (C1, C2, C5, C6) are about the epoch loop
`for epoch in range(epochs): train(...); validate(...)`, the global metric
lists, the growth check at the end of `train`, and the optimizer handling.
The per-batch numeric work inside an epoch is abstracted into the epoch
aggregates the growth check actually consumes (`EpochData`), supplied as a
function of the epoch index.

Optimizer identity matters for claim C1, so parameters are named:
`model.parameters()` is the embedding weight, the positional embedding, the
parameters of each layer of `model.layers` (layers carry a creation id so a
newly grown layer's parameters are distinguishable), and the classifier
weight.  Python scoping is modelled faithfully: `train` receives the
optimizer as a function argument, and the assignment
`optimizer = optim.Adam(...)` on source line 293 rebinds only the local
name, so the caller's global `optimizer` is unchanged. -/

/-- Identity of a learnable parameter group of the model. -/
inductive Param where
  | embeddingW : Param
  | positionalW : Param
  | classifierW : Param
  | layerW : ℕ → Param
deriving DecidableEq, Repr

/-- The ordered parameter list returned by `model.parameters()` for a given
layer stack (layers identified by creation id). -/
def modelParameters (layers : List ℕ) : List Param :=
  Param.embeddingW :: Param.positionalW ::
    (layers.map Param.layerW ++ [Param.classifierW])

/-- An `optim.Adam` instance: the parameter references captured at
construction time, the learning rate, and the weight decay. -/
structure Optimizer where
  params : List Param
  lr : ℚ
  weight_decay : ℚ
deriving DecidableEq, Repr

/-- Construction `optim.Adam(params, lr, weight_decay)`; `weight_decay`
defaults to `0` at source line 185 and is `1e-4` at source line 293. -/
def AdamInit (ps : List Param) (lr wd : ℚ) : Optimizer :=
  { params := ps, lr := lr, weight_decay := wd }

/-- Per-epoch aggregates produced by the batch and validation loops:
`epoch_loss` and `epoch_accuracy` (source lines 266-267), `avg_grad_norm`
(source line 272), and the validation metrics (source lines 332-336). -/
structure EpochData where
  epoch_loss : ℚ
  epoch_accuracy : ℚ
  avg_grad_norm : ℚ
  val_accuracy : ℚ
  val_loss : ℚ
deriving DecidableEq, Repr

/-- The global mutable state of the script: the model's layer stack
(source line 102 / 290), a fresh-id counter for newly created layers, the
global `optimizer` (source line 185), and the six metric lists
(source lines 188-193). -/
structure ScriptState where
  layers : List ℕ
  nextLayerId : ℕ
  optimizer : Optimizer
  train_losses : List ℚ
  train_accuracies : List ℚ
  val_losses : List ℚ
  val_accuracies : List ℚ
  growth_epochs : List ℕ
  avg_grad_norms : List ℚ
deriving DecidableEq, Repr

/-- The state after source lines 181-193: a model of `depth` layers, the
global Adam optimizer over its parameters with no weight decay, and empty
metric lists (`load_model = 0`, so no checkpoint is restored). -/
def initScriptState : ScriptState :=
  { layers := List.range depth
    nextLayerId := depth
    optimizer := AdamInit (modelParameters (List.range depth)) learning_rate 0
    train_losses := []
    train_accuracies := []
    val_losses := []
    val_accuracies := []
    growth_epochs := []
    avg_grad_norms := [] }

/-- The growth condition at source line 276:
`epoch > 20 and (epoch % grow_every_n_epochs == 0) and
(avg_grad_norm > grad_threshold or epoch_loss > loss_threshold)`. -/
def growthTrigger (epoch : ℕ) (avg_grad_norm epoch_loss : ℚ) : Bool :=
  decide (epoch > 20) && decide (epoch % grow_every_n_epochs = 0) &&
    (decide (avg_grad_norm > grad_threshold) ||
     decide (epoch_loss > loss_threshold))

/-- Result of one call of `train`: the updated globals, the optimizer whose
`.step()` applied this epoch's parameter updates (the function argument),
and the final value of `train`'s local variable `optimizer`, which is
discarded when the function returns because Python assignment inside a
function rebinds only the local name. -/
structure TrainResult where
  state : ScriptState
  usedOptimizer : Optimizer
  localOptimizerAfter : Optimizer
deriving DecidableEq, Repr

/-- One call of `train(model, train_loader, criterion, optimizer, epoch)`
(source lines 230-295) at epoch granularity: append the epoch's training
metrics (lines 266-273), then run the growth check (lines 276-294).  On
trigger: record `epoch + 1` (line 278), create a fresh layer and append it
to `model.layers` (lines 280-290), and rebuild the local `optimizer` with
weight decay `1e-4` over the grown parameter list (line 293).  The
parameter updates of the epoch were applied by `opt.step()` (line 258),
which ran before the growth check. -/
def trainStep (st : ScriptState) (opt : Optimizer) (epoch : ℕ)
    (d : EpochData) : TrainResult :=
  let st1 : ScriptState :=
    { st with
      train_losses := st.train_losses ++ [d.epoch_loss]
      train_accuracies := st.train_accuracies ++ [d.epoch_accuracy]
      avg_grad_norms := st.avg_grad_norms ++ [d.avg_grad_norm] }
  if growthTrigger epoch d.avg_grad_norm d.epoch_loss then
    let newId := st1.nextLayerId
    let grownLayers := st1.layers ++ [newId]
    let rebuilt := AdamInit (modelParameters grownLayers) learning_rate (mkRat 1 10000)
    { state :=
        { st1 with
          layers := grownLayers
          nextLayerId := newId + 1
          growth_epochs := st1.growth_epochs ++ [epoch + 1] }
      usedOptimizer := opt
      localOptimizerAfter := rebuilt }
  else
    { state := st1, usedOptimizer := opt, localOptimizerAfter := opt }

/-- One call of `validate(model, test_loader, criterion)`
(source lines 314-339) at epoch granularity: append the epoch's validation
accuracy (line 333) and average validation loss (line 337). -/
def validateStep (st : ScriptState) (d : EpochData) : ScriptState :=
  { st with
    val_accuracies := st.val_accuracies ++ [d.val_accuracy]
    val_losses := st.val_losses ++ [d.val_loss] }

/-- The epoch loop at source lines 344-346, run for `n` epochs with epoch
aggregates `f`:  `train` is called with the global `optimizer`, and since
`train` returns `None` and never rebinds the global, `st.optimizer` is
threaded through unchanged. -/
def runEpochs (f : ℕ → EpochData) : ℕ → ScriptState
  | 0 => initScriptState
  | n + 1 =>
      let st := runEpochs f n
      validateStep (trainStep st st.optimizer n (f n)).state (f n)

/-! ## Theorems for the quantizer claims -/

/-- C4: for every tensor and positive scale, `fixed_point_quantize`
operates elementwise (shape-preserving and independent across elements),
every output value is an integer multiple of `1/scale` whose integer lies
in the clamp interval `[-32768, 32767]`, and `quantize(1000.0, 256)`
saturates to `32767/256` rather than wrapping. -/
theorem fixed_point_quantize_spec :
    (∀ (t : List ℚ) (s : ℚ),
        (fixed_point_quantize_tensor t s).length = t.length) ∧
    (∀ (t1 t2 : List ℚ) (s : ℚ),
        fixed_point_quantize_tensor (t1 ++ t2) s =
          fixed_point_quantize_tensor t1 s ++ fixed_point_quantize_tensor t2 s) ∧
    (∀ (x s : ℚ), 0 < s → ∃ m : ℤ, -32768 ≤ m ∧ m ≤ 32767 ∧
        fixed_point_quantize x s = (m : ℚ) / s) ∧
    fixed_point_quantize 1000 256 = 32767 / 256 := by
  refine ⟨?_, ?_, ?_, ?_⟩
  · intro t s
    simp [fixed_point_quantize_tensor]
  · intro t1 t2 s
    simp [fixed_point_quantize_tensor]
  · intro x s _hs
    refine ⟨clampI16 (roundHalfEven (x * s)), ?_, ?_, rfl⟩
    · have h := (clampI16_mem (roundHalfEven (x * s))).1
      omega
    · have h := (clampI16_mem (roundHalfEven (x * s))).2
      omega
  · norm_num [fixed_point_quantize, roundHalfEven, clampI16]

/-- Witness for C4 at `x = 1000`, `s = 256`. -/
theorem fixed_point_quantize_spec_witness :
    (0 : ℚ) < 256 ∧ ∃ m : ℤ, -32768 ≤ m ∧ m ≤ 32767 ∧
      fixed_point_quantize 1000 256 = (m : ℚ) / 256 :=
  ⟨by decide, fixed_point_quantize_spec.2.2.1 1000 256 (by decide)⟩

/-- C7: quantization is idempotent for every positive scale — every output
of `fixed_point_quantize` (in particular every grid value it produces) is
a fixed point of a second quantization at the same scale. -/
theorem fixed_point_quantize_idempotent (x s : ℚ) (hs : 0 < s) :
    fixed_point_quantize (fixed_point_quantize x s) s =
      fixed_point_quantize x s := by
  unfold fixed_point_quantize
  have hsne : s ≠ 0 := ne_of_gt hs
  rw [div_mul_cancel₀ _ hsne, roundHalfEven_intCast,
    clampI16_of_mem (clampI16_mem (roundHalfEven (x * s))).1
      (clampI16_mem (roundHalfEven (x * s))).2]

/-- Witness for C7 at `x = 1000`, `s = 256`. -/
theorem fixed_point_quantize_idempotent_witness :
    (0 : ℚ) < 256 ∧
      fixed_point_quantize (fixed_point_quantize 1000 256) 256 =
        fixed_point_quantize 1000 256 :=
  ⟨by decide, fixed_point_quantize_idempotent 1000 256 (by decide)⟩

/-- C8: quantization is exact on representable values — for scale `256`
and integer `k` with `|k| ≤ 32767`, `quantize(k/256, 256) = k/256`. -/
theorem fixed_point_quantize_exact (k : ℤ) (h : |k| ≤ 32767) :
    fixed_point_quantize ((k : ℚ) / 256) 256 = (k : ℚ) / 256 := by
  unfold fixed_point_quantize
  rw [abs_le] at h
  rw [div_mul_cancel₀ _ (by norm_num : (256 : ℚ) ≠ 0), roundHalfEven_intCast,
    clampI16_of_mem (by omega) (by omega)]

/-- Witness for C8 at `k = 32767`. -/
theorem fixed_point_quantize_exact_witness :
    |(32767 : ℤ)| ≤ 32767 ∧
      fixed_point_quantize ((32767 : ℤ) / 256 : ℚ) 256 = ((32767 : ℤ) : ℚ) / 256 := by
  refine ⟨by decide, ?_⟩
  have h := fixed_point_quantize_exact 32767 (by decide)
  exact_mod_cast h

/-- C10: quantization is monotone — for a positive scale, rounding,
clamping and rescaling all preserve order. -/
theorem fixed_point_quantize_monotone (x y s : ℚ) (hs : 0 < s)
    (hxy : x ≤ y) : fixed_point_quantize x s ≤ fixed_point_quantize y s := by
  unfold fixed_point_quantize
  have h1 : x * s ≤ y * s := mul_le_mul_of_nonneg_right hxy (le_of_lt hs)
  have h2 := clampI16_mono (roundHalfEven_mono h1)
  have h3 : ((clampI16 (roundHalfEven (x * s)) : ℤ) : ℚ) ≤
      ((clampI16 (roundHalfEven (y * s)) : ℤ) : ℚ) := by exact_mod_cast h2
  exact div_le_div_of_nonneg_right h3 (le_of_lt hs)

/-! ## Theorem for the gradient-clipping claim -/

/-- C9: for a batch gradient `g` with Euclidean norm `n` (certified by
`n ≥ 0` and `n * n = sumSq g`), the driver rescales the gradient exactly
when `n` exceeds the clip threshold; the rescaled gradient is a positive
scalar multiple of the original (direction unchanged) with the scalar
below one, its norm is `c * n`, which equals the threshold up to the
`1e-6` stabiliser of `clip_grad_norm_` (a deficit of at most
`threshold * 1e-6 / n`), and a gradient at or below the threshold is left
unchanged. -/
theorem gradient_clip_spec (g : List ℚ) (n : ℚ) (_hn0 : 0 ≤ n)
    (hnorm : n * n = sumSq g) :
    (¬ grad_clip_threshold < n → train_batch_clip g n = g) ∧
    (grad_clip_threshold < n →
      ∃ c : ℚ, 0 < c ∧ c < 1 ∧
        train_batch_clip g n = g.map (fun x => x * c) ∧
        sumSq (train_batch_clip g n) = (c * n) * (c * n) ∧
        c * n ≤ grad_clip_threshold ∧
        grad_clip_threshold - c * n ≤ grad_clip_threshold * clip_eps / n) := by
  constructor
  · intro h
    simp [train_batch_clip, h]
  · intro h
    have hthr : (0 : ℚ) < grad_clip_threshold := by
      rw [grad_clip_threshold_eq]; norm_num
    have heps : (0 : ℚ) < clip_eps := by
      rw [clip_eps_eq]; norm_num
    have hn : (0 : ℚ) < n := lt_trans hthr h
    have hne : (0 : ℚ) < n + clip_eps := by linarith
    refine ⟨grad_clip_threshold / (n + clip_eps), div_pos hthr hne, ?_, ?_, ?_, ?_, ?_⟩
    · rw [div_lt_one hne]
      linarith
    · simp only [train_batch_clip, if_pos h, clip_grad_norm]
      have hmin : min (grad_clip_threshold / (n + clip_eps)) 1 =
          grad_clip_threshold / (n + clip_eps) := by
        apply min_eq_left
        rw [div_le_one hne]
        linarith
      rw [hmin]
    · simp only [train_batch_clip, if_pos h, clip_grad_norm]
      have hmin : min (grad_clip_threshold / (n + clip_eps)) 1 =
          grad_clip_threshold / (n + clip_eps) := by
        apply min_eq_left
        rw [div_le_one hne]
        linarith
      rw [hmin, sumSq_map_mul, ← hnorm]
      ring
    · rw [div_mul_eq_mul_div, div_le_iff₀ hne]
      have hstep : grad_clip_threshold * n ≤ grad_clip_threshold * (n + clip_eps) := by
        apply mul_le_mul_of_nonneg_left _ (le_of_lt hthr)
        linarith
      linarith
    · have key : grad_clip_threshold - grad_clip_threshold / (n + clip_eps) * n =
          grad_clip_threshold * clip_eps / (n + clip_eps) := by
        field_simp
        ring
      rw [key]
      apply div_le_div_of_nonneg_left (mul_pos hthr heps).le hn
      linarith

/-- Witness for C9: the synthetic gradient `[3/5, 4/5]` with norm `1` and
clip threshold `3/10`. -/
theorem gradient_clip_spec_witness :
    (¬ grad_clip_threshold < 1 → train_batch_clip [(3 : ℚ)/5, 4/5] 1 = [(3 : ℚ)/5, 4/5]) ∧
    (grad_clip_threshold < 1 →
      ∃ c : ℚ, 0 < c ∧ c < 1 ∧
        train_batch_clip [(3 : ℚ)/5, 4/5] 1 = [(3 : ℚ)/5, 4/5].map (fun x => x * c) ∧
        sumSq (train_batch_clip [(3 : ℚ)/5, 4/5] 1) = (c * 1) * (c * 1) ∧
        c * 1 ≤ grad_clip_threshold ∧
        grad_clip_threshold - c * 1 ≤ grad_clip_threshold * clip_eps / 1) :=
  gradient_clip_spec [(3 : ℚ)/5, 4/5] 1 (by norm_num) (by norm_num [sumSq])

/-! ## Theorems for the growth controller and driver claims -/

/-- C2: growth is triggered iff `epoch > 20`, `epoch % 20 == 0`, and the
mean gradient norm or mean loss exceeds its threshold; on trigger exactly
one layer is appended to the stack and `epoch + 1` is recorded; without a
trigger the stack and the growth record are unchanged.  Concretely,
at epoch 40 a mean gradient norm of `1/2` triggers growth for every loss
value, and at epoch 15 nothing triggers regardless of the metrics. -/
theorem growth_gating_spec :
    (∀ (epoch : ℕ) (g L : ℚ),
        growthTrigger epoch g L = true ↔
          (20 < epoch ∧ epoch % 20 = 0 ∧
            (grad_threshold < g ∨ loss_threshold < L))) ∧
    (∀ (st : ScriptState) (opt : Optimizer) (epoch : ℕ) (d : EpochData),
        growthTrigger epoch d.avg_grad_norm d.epoch_loss = true →
          (trainStep st opt epoch d).state.layers =
              st.layers ++ [st.nextLayerId] ∧
            (trainStep st opt epoch d).state.layers.length =
              st.layers.length + 1 ∧
            (trainStep st opt epoch d).state.growth_epochs =
              st.growth_epochs ++ [epoch + 1]) ∧
    (∀ (st : ScriptState) (opt : Optimizer) (epoch : ℕ) (d : EpochData),
        growthTrigger epoch d.avg_grad_norm d.epoch_loss = false →
          (trainStep st opt epoch d).state.layers = st.layers ∧
            (trainStep st opt epoch d).state.growth_epochs =
              st.growth_epochs) ∧
    (∀ L : ℚ, growthTrigger 40 (1/2) L = true) ∧
    (∀ (g L : ℚ), growthTrigger 15 g L = false) := by
  refine ⟨?_, ?_, ?_, ?_, ?_⟩
  · intro epoch g L
    simp [growthTrigger, grow_every_n_epochs, and_assoc]
  · intro st opt epoch d h
    simp [trainStep, h]
  · intro st opt epoch d h
    simp [trainStep, h]
  · intro L
    simp [growthTrigger, grow_every_n_epochs, grad_threshold_eq]
    norm_num
  · intro g L
    simp [growthTrigger]

/-- Witness for C2: the trigger at epoch 40 with gradient norm `1/2`
appends exactly one layer to the initial three-layer stack and records
epoch 41. -/
theorem growth_gating_spec_witness :
    growthTrigger 40 (mkRat 1 2) (mkRat 1 2) = true ∧
    ((trainStep initScriptState initScriptState.optimizer 40
        { epoch_loss := mkRat 1 2, epoch_accuracy := 50,
          avg_grad_norm := mkRat 1 2, val_accuracy := 50,
          val_loss := mkRat 1 2 }).state.layers =
        initScriptState.layers ++ [initScriptState.nextLayerId] ∧
      (trainStep initScriptState initScriptState.optimizer 40
        { epoch_loss := mkRat 1 2, epoch_accuracy := 50,
          avg_grad_norm := mkRat 1 2, val_accuracy := 50,
          val_loss := mkRat 1 2 }).state.layers.length =
        initScriptState.layers.length + 1 ∧
      (trainStep initScriptState initScriptState.optimizer 40
        { epoch_loss := mkRat 1 2, epoch_accuracy := 50,
          avg_grad_norm := mkRat 1 2, val_accuracy := 50,
          val_loss := mkRat 1 2 }).state.growth_epochs =
        initScriptState.growth_epochs ++ [40 + 1]) :=
  ⟨by decide,
    growth_gating_spec.2.1 initScriptState initScriptState.optimizer 40
      { epoch_loss := mkRat 1 2, epoch_accuracy := 50,
        avg_grad_norm := mkRat 1 2, val_accuracy := 50,
        val_loss := mkRat 1 2 } (by decide)⟩

lemma trainStep_fields (st : ScriptState) (opt : Optimizer) (epoch : ℕ)
    (d : EpochData) :
    (trainStep st opt epoch d).state.train_losses =
        st.train_losses ++ [d.epoch_loss] ∧
    (trainStep st opt epoch d).state.train_accuracies =
        st.train_accuracies ++ [d.epoch_accuracy] ∧
    (trainStep st opt epoch d).state.avg_grad_norms =
        st.avg_grad_norms ++ [d.avg_grad_norm] ∧
    (trainStep st opt epoch d).state.val_accuracies = st.val_accuracies ∧
    (trainStep st opt epoch d).state.val_losses = st.val_losses ∧
    ((trainStep st opt epoch d).state.growth_epochs = st.growth_epochs ∨
      (trainStep st opt epoch d).state.growth_epochs =
        st.growth_epochs ++ [epoch + 1]) := by
  unfold trainStep
  split <;> simp

lemma validateStep_fields (st : ScriptState) (d : EpochData) :
    (validateStep st d).train_losses = st.train_losses ∧
    (validateStep st d).train_accuracies = st.train_accuracies ∧
    (validateStep st d).avg_grad_norms = st.avg_grad_norms ∧
    (validateStep st d).val_accuracies = st.val_accuracies ++ [d.val_accuracy] ∧
    (validateStep st d).val_losses = st.val_losses ++ [d.val_loss] ∧
    (validateStep st d).growth_epochs = st.growth_epochs := by
  unfold validateStep
  simp

lemma runEpochs_succ_eq (f : ℕ → EpochData) (n : ℕ) :
    runEpochs f (n + 1) =
      validateStep (trainStep (runEpochs f n) (runEpochs f n).optimizer n
        (f n)).state (f n) := rfl

/-- C5: after every completed epoch, the four metric sequences each have
length equal to the number of completed epochs, and the recorded growth
epochs are strictly increasing with every entry a (one-indexed) epoch
index of the run so far — at most one entry per epoch. -/
theorem metrics_history_invariant (f : ℕ → EpochData) (n : ℕ) :
    (runEpochs f n).train_losses.length = n ∧
    (runEpochs f n).train_accuracies.length = n ∧
    (runEpochs f n).val_accuracies.length = n ∧
    (runEpochs f n).val_losses.length = n ∧
    (runEpochs f n).growth_epochs.Pairwise (· < ·) ∧
    ∀ e ∈ (runEpochs f n).growth_epochs, 1 ≤ e ∧ e ≤ n := by
  induction n with
  | zero =>
      refine ⟨rfl, rfl, rfl, rfl, ?_, ?_⟩ <;>
        simp [runEpochs, initScriptState]
  | succ n ih =>
      obtain ⟨h1, h2, h3, h4, hpw, hmem⟩ := ih
      obtain ⟨t1, t2, t3, t4, t5, t6⟩ :=
        trainStep_fields (runEpochs f n) (runEpochs f n).optimizer n (f n)
      obtain ⟨v1, v2, v3, v4, v5, v6⟩ :=
        validateStep_fields
          (trainStep (runEpochs f n) (runEpochs f n).optimizer n (f n)).state
          (f n)
      rw [runEpochs_succ_eq]
      refine ⟨?_, ?_, ?_, ?_, ?_, ?_⟩
      · rw [v1, t1]; simp [h1]
      · rw [v2, t2]; simp [h2]
      · rw [v4, t4]; simp [h3]
      · rw [v5, t5]; simp [h4]
      · rw [v6]
        rcases t6 with hge | hge
        · rw [hge]; exact hpw
        · rw [hge, List.pairwise_append]
          refine ⟨hpw, by simp, ?_⟩
          intro a ha b hb
          simp only [List.mem_singleton] at hb
          subst hb
          have := (hmem a ha).2
          omega
      · rw [v6]
        rcases t6 with hge | hge
        · rw [hge]
          intro e he
          have := hmem e he
          omega
        · rw [hge]
          intro e he
          rcases List.mem_append.mp he with h | h
          · have := hmem e h
            omega
          · simp only [List.mem_singleton] at h
            omega

lemma runEpochs_layers_succ (f : ℕ → EpochData) (n : ℕ) :
    (growthTrigger n (f n).avg_grad_norm (f n).epoch_loss = true →
      (runEpochs f (n + 1)).layers =
        (runEpochs f n).layers ++ [(runEpochs f n).nextLayerId]) ∧
    (growthTrigger n (f n).avg_grad_norm (f n).epoch_loss = false →
      (runEpochs f (n + 1)).layers = (runEpochs f n).layers) := by
  constructor <;> intro h <;> rw [runEpochs_succ_eq] <;>
    simp [validateStep, trainStep, h]

lemma runEpochs_layers_le (f : ℕ → EpochData) {n m : ℕ} (h : n ≤ m) :
    ∃ t, (runEpochs f m).layers = (runEpochs f n).layers ++ t := by
  induction m, h using Nat.le_induction with
  | base => exact ⟨[], by simp⟩
  | succ m _hm ih =>
      obtain ⟨t, ht⟩ := ih
      cases hg : growthTrigger m (f m).avg_grad_norm (f m).epoch_loss with
      | false => exact ⟨t, by rw [(runEpochs_layers_succ f m).2 hg, ht]⟩
      | true =>
          exact ⟨t ++ [(runEpochs f m).nextLayerId],
            by rw [(runEpochs_layers_succ f m).1 hg, ht, List.append_assoc]⟩

/-- C6: the layer stack is append-only across the run — a growth event
appends exactly one layer at the end of the stack and nothing else touches
it, every earlier state's stack is an unchanged initial segment of every
later state's stack (no removal or reordering, positions preserved), and
the stack length is non-decreasing over epochs. -/
theorem layer_stack_append_only (f : ℕ → EpochData) :
    (∀ n : ℕ,
      (growthTrigger n (f n).avg_grad_norm (f n).epoch_loss = true →
        (runEpochs f (n + 1)).layers =
          (runEpochs f n).layers ++ [(runEpochs f n).nextLayerId]) ∧
      (growthTrigger n (f n).avg_grad_norm (f n).epoch_loss = false →
        (runEpochs f (n + 1)).layers = (runEpochs f n).layers)) ∧
    (∀ n m : ℕ, n ≤ m →
      ∃ t, (runEpochs f m).layers = (runEpochs f n).layers ++ t) ∧
    (∀ n m : ℕ, n ≤ m →
      (runEpochs f n).layers.length ≤ (runEpochs f m).layers.length) := by
  refine ⟨fun n => runEpochs_layers_succ f n,
    fun n m h => runEpochs_layers_le f h, ?_⟩
  intro n m h
  obtain ⟨t, ht⟩ := runEpochs_layers_le f h
  rw [ht]
  simp

/-- A constant epoch-aggregate stream: every epoch reports mean loss `1/2`
(below `loss_threshold`) and mean gradient norm `1/2` (above
`grad_threshold`), so growth triggers exactly at the eligible checkpoints
(epochs 40, 60, 80, ... in zero-indexed terms). -/
def constEpochData : EpochData :=
  { epoch_loss := mkRat 1 2, epoch_accuracy := 50,
    avg_grad_norm := mkRat 1 2, val_accuracy := 50, val_loss := mkRat 1 2 }

/-- The constant stream as a function of the epoch index. -/
def constEpochFun : ℕ → EpochData := fun _ => constEpochData

/-- Witness for C6: the growth step at epoch 40 of the constant run, and
the stack of epoch 0 as an initial segment of the stack of epoch 41. -/
theorem layer_stack_append_only_witness :
    ((runEpochs constEpochFun 41).layers =
      (runEpochs constEpochFun 40).layers ++
        [(runEpochs constEpochFun 40).nextLayerId]) ∧
    (∃ t, (runEpochs constEpochFun 41).layers =
      (runEpochs constEpochFun 0).layers ++ t) ∧
    (runEpochs constEpochFun 0).layers.length ≤
      (runEpochs constEpochFun 41).layers.length :=
  ⟨((layer_stack_append_only constEpochFun).1 40).1 (by decide),
    (layer_stack_append_only constEpochFun).2.1 0 41 (by decide),
    (layer_stack_append_only constEpochFun).2.2 0 41 (by decide)⟩

/-- C1: demonstration of the optimizer-staleness bug.  Running the script
for 42 epochs on the constant stream, growth fires at (zero-indexed)
epoch 40 and is recorded as 41, the stack grows from layers `[0, 1, 2]`
to `[0, 1, 2, 3]`, and the rebuilt optimizer of source line 293 — which
does hold the new layer's parameters and weight decay `1e-4` — exists only
as `train`'s discarded local value; the global optimizer that `train`
receives and steps at epoch 41 (and at every later epoch) is still the
original Adam of source line 185, whose parameter set excludes the new
layer `3` and whose weight decay is `0`. -/
theorem optimizer_stale_after_growth :
    (runEpochs constEpochFun 41).growth_epochs = [41] ∧
    (runEpochs constEpochFun 41).layers = [0, 1, 2, 3] ∧
    Param.layerW 3 ∈ modelParameters (runEpochs constEpochFun 41).layers ∧
    (runEpochs constEpochFun 41).optimizer =
      AdamInit (modelParameters [0, 1, 2]) learning_rate 0 ∧
    (trainStep (runEpochs constEpochFun 41)
        (runEpochs constEpochFun 41).optimizer 41
        constEpochData).usedOptimizer =
      AdamInit (modelParameters [0, 1, 2]) learning_rate 0 ∧
    Param.layerW 3 ∉ (runEpochs constEpochFun 41).optimizer.params ∧
    (runEpochs constEpochFun 41).optimizer.weight_decay = 0 ∧
    (trainStep (runEpochs constEpochFun 40)
        (runEpochs constEpochFun 40).optimizer 40
        constEpochData).localOptimizerAfter =
      AdamInit (modelParameters [0, 1, 2, 3]) learning_rate (mkRat 1 10000) ∧
    (trainStep (runEpochs constEpochFun 41)
        (runEpochs constEpochFun 41).optimizer 41
        constEpochData).usedOptimizer ≠
      (trainStep (runEpochs constEpochFun 40)
        (runEpochs constEpochFun 40).optimizer 40
        constEpochData).localOptimizerAfter := by decide

/-! ## Theorems for the construction-time validation claim -/

/-- C3 counterexample: with `embed_dim = 7` and `num_heads = 2`
(`7 % 2 ≠ 0`) construction completes normally — `FixedPointAttention` and
the full `FixedPointViT` are built with all their sub-modules, nothing is
rejected — and the mismatch surfaces only in the attention forward pass at
the head-split `view`.  Likewise `image_size = 33`, `patch_size = 4`
(`33 % 4 ≠ 0`) is accepted at construction, the trailing pixels simply
being dropped by `//` in `patch_dim`. -/
theorem construction_no_validation_counterexample :
    FixedPointAttention.init 7 2 256 =
      { num_heads := 2, scale := 256,
        qkv := { in_features := 7, out_features := 21 },
        out_proj := { in_features := 7, out_features := 7 } } ∧
    ¬ (2 ∣ 7) ∧
    (FixedPointViT.init 32 4 3 7 3 2 16 256).layers =
      List.replicate 3 (FixedPointTransformerEncoderLayer.init 7 2 16 256) ∧
    (FixedPointAttention.init 7 2 256).forwardShape 1 4 7 =
      Except.error "shape is invalid for input of given size" ∧
    ¬ (4 ∣ 33) ∧
    (FixedPointViT.init 33 4 3 512 3 16 256 256).patch_dim = 64 :=
  ⟨rfl, by decide, rfl, rfl, by decide, rfl⟩

/-- C3 amended: the constructors perform no divisibility validation —
`FixedPointAttention.init` builds its module for every `embed_dim` and
`num_heads` — and an `embed_dim` / `num_heads` mismatch is rejected at the
first forward pass instead: the head-split `view` succeeds iff `num_heads`
divides `embed_dim`, raising the shape error otherwise. -/
theorem shape_mismatch_at_first_forward (E H B S : ℕ) (scale : ℚ)
    (hB : 0 < B) (hS : 0 < S) (hH : 0 < H) :
    (FixedPointAttention.init E H scale).num_heads = H ∧
    (FixedPointAttention.init E H scale).qkv =
      { in_features := E, out_features := E * 3 } ∧
    (FixedPointAttention.init E H scale).out_proj =
      { in_features := E, out_features := E } ∧
    (H ∣ E →
      (FixedPointAttention.init E H scale).forwardShape B S E =
        Except.ok (B, S, E)) ∧
    (¬ H ∣ E →
      (FixedPointAttention.init E H scale).forwardShape B S E =
        Except.error "shape is invalid for input of given size") := by
  have hchunk : E * 3 / 3 = E := by omega
  have hBS : 0 < B * S := Nat.mul_pos hB hS
  have hBSH : B * S * H ≠ 0 := (Nat.mul_pos hBS hH).ne'
  refine ⟨rfl, rfl, rfl, ?_, ?_⟩
  · intro hdvd
    have hd2 : B * S * H ∣ B * S * E := mul_dvd_mul_left (B * S) hdvd
    unfold FixedPointAttention.forwardShape FixedPointAttention.init
    simp [linearApply, viewInfer, hBSH, hd2]
  · intro hdvd
    have hd2 : ¬ (B * S * H ∣ B * S * E) := by
      rw [mul_dvd_mul_iff_left hBS.ne']
      exact hdvd
    unfold FixedPointAttention.forwardShape FixedPointAttention.init
    simp [linearApply, viewInfer, hBSH, hd2]

/-- Witness for C3's amended theorem at `embed_dim = 8`, `num_heads = 2`,
batch 1, sequence length 4. -/
theorem shape_mismatch_at_first_forward_witness :
    (FixedPointAttention.init 8 2 256).num_heads = 2 ∧
    (FixedPointAttention.init 8 2 256).qkv =
      { in_features := 8, out_features := 8 * 3 } ∧
    (FixedPointAttention.init 8 2 256).out_proj =
      { in_features := 8, out_features := 8 } ∧
    ((2 : ℕ) ∣ 8 →
      (FixedPointAttention.init 8 2 256).forwardShape 1 4 8 =
        Except.ok (1, 4, 8)) ∧
    (¬ (2 : ℕ) ∣ 8 →
      (FixedPointAttention.init 8 2 256).forwardShape 1 4 8 =
        Except.error "shape is invalid for input of given size") :=
  shape_mismatch_at_first_forward 8 2 1 4 256 (by decide) (by decide) (by decide)

/-- Witness for C10 at `x = 1`, `y = 1000`, `s = 256`. -/
theorem fixed_point_quantize_monotone_witness :
    (0 : ℚ) < 256 ∧ (1 : ℚ) ≤ 1000 ∧
      fixed_point_quantize 1 256 ≤ fixed_point_quantize 1000 256 :=
  ⟨by decide, by decide,
    fixed_point_quantize_monotone 1 1000 256 (by decide) (by decide)⟩
